import Mathlib

/-!
Verification development for the critical-css repository's resource
classification and recommendation engine.

The definitions below are shallow embeddings of the JavaScript sources:
  * `src/src/lib/recommendation-engine.js` (SEO-critical detection,
    blocking score, per-script recommendation, insight aggregation),
  * `src/src/lib/domain-matcher.js` (vendor matching, readable-name
    extraction, criticality/load-strategy inference),
  * the above-the-fold pruner (`captureAboveTheFoldHTML`/`cloneAboveTheFold`),
  * the extractor's `getElementPosition` helper.

JavaScript regular expressions are embedded with a small
Brzozowski-derivative matcher over `Char` predicates; `RegExp.test` is the
unanchored-match test.  Strings are handled through their character lists.
Machine floats do not occur on the verified paths (all arithmetic involved
is integer arithmetic); JavaScript falsiness of strings/objects is made
explicit with `Option` and emptiness tests.  The presentational
`codeExample` / `currentCode` template strings produced by
`code-templates.js` are not part of the model: no claim depends on them and
they feed no decision logic.
-/

namespace CriticalCss

/-! ### A tiny regular-expression engine (model of JS `RegExp.test`)

Constructors mirror what the source's patterns need: character predicates,
concatenation, alternation, Kleene star.  `reTest` is the unanchored
substring test that `RegExp.prototype.test` performs.
-/

inductive RE where
  | emp : RE
  | eps : RE
  | chr (p : Char → Bool) : RE
  | cat (a b : RE) : RE
  | alt (a b : RE) : RE
  | star (a : RE) : RE

namespace RE

def nullable : RE → Bool
  | emp => false
  | eps => true
  | chr _ => false
  | cat a b => nullable a && nullable b
  | alt a b => nullable a || nullable b
  | star _ => true

/-- Smart concatenation (keeps derivative terms small; semantics-preserving). -/
def scat : RE → RE → RE
  | emp, _ => emp
  | _, emp => emp
  | eps, b => b
  | a, eps => a
  | a, b => cat a b

/-- Smart alternation. -/
def salt : RE → RE → RE
  | emp, b => b
  | a, emp => a
  | a, b => alt a b

def deriv : RE → Char → RE
  | emp, _ => emp
  | eps, _ => emp
  | chr p, c => if p c then eps else emp
  | cat a b, c =>
      if nullable a then salt (scat (deriv a c) b) (deriv b c)
      else scat (deriv a c) b
  | alt a b, c => salt (deriv a c) (deriv b c)
  | star a, c => scat (deriv a c) (star a)

/-- Anchored match of a whole character list. -/
def matchChars (r : RE) (cs : List Char) : Bool :=
  nullable (cs.foldl deriv r)

/-- Any single character (the true wildcard used around an unanchored test). -/
def anyChar : RE := chr (fun _ => true)

/-- JS `.` (any character except line terminators). -/
def dot : RE :=
  chr (fun c =>
    !(c == '\n' || c == '\r' || c == Char.ofNat 0x2028 || c == Char.ofNat 0x2029))

/-- JS `\s` whitespace class (common members). -/
def ws : RE :=
  chr (fun c =>
    c == ' ' || c == '\t' || c == '\n' || c == '\r' ||
    c == Char.ofNat 11 || c == Char.ofNat 12 || c == Char.ofNat 0xA0 ||
    c == Char.ofNat 0xFEFF)

/-- Literal character. -/
def lchr (c : Char) : RE := chr (fun x => x == c)

/-- Literal string. -/
def lit (s : String) : RE :=
  s.toList.foldr (fun c r => cat (lchr c) r) eps

/-- One or more repetitions. -/
def plus (r : RE) : RE := cat r (star r)

/-- Alternation of a list of regexes. -/
def altList : List RE → RE
  | [] => emp
  | [r] => r
  | r :: rs => alt r (altList rs)

/-- `RegExp.prototype.test`: does any substring match `r`? -/
def reTest (r : RE) (s : String) : Bool :=
  matchChars (cat (star anyChar) (cat r (star anyChar))) s.toList

end RE

/-! ### String helpers mirroring the JavaScript string primitives used -/

/-- JS `String.prototype.includes` via character lists. -/
def hasPrefixChars : List Char → List Char → Bool
  | [], _ => true
  | _ :: _, [] => false
  | a :: as, b :: bs => a == b && hasPrefixChars as bs

def hasInfixChars (needle : List Char) : List Char → Bool
  | [] => needle.isEmpty
  | c :: rest => hasPrefixChars needle (c :: rest) || hasInfixChars needle rest

/-- JS `s.includes(sub)`. -/
def strIncludes (s sub : String) : Bool :=
  hasInfixChars sub.toList s.toList

/-- JS `s.startsWith(sub)`. -/
def strStartsWith (s sub : String) : Bool :=
  hasPrefixChars sub.toList s.toList

/-- JS `s.endsWith(sub)`. -/
def strEndsWith (s sub : String) : Bool :=
  hasPrefixChars sub.toList.reverse s.toList.reverse

/-- JS `s.toLowerCase()` (ASCII-faithful, which covers every string compared). -/
def toLowerStr (s : String) : String :=
  String.mk (s.toList.map Char.toLower)

/-! ### Data model of an analyzed script

Mirrors the object built by the extractor (`part_019`) and consumed by
`recommendation-engine.js`.  Fields the modelled functions never read
(`id`, `attributes`, `domain`, `position.index`, `size.resourceSize`,
`size.duration`) are omitted.  `Option` encodes JS `null`/`undefined`.
-/

structure ScriptPosition where
  location : String
deriving DecidableEq

structure ScriptLoading where
  strategy : String
  isBlocking : Bool
deriving DecidableEq

structure ScriptSize where
  transferSize : Nat
deriving DecidableEq

/-- The `recommendation` object produced by `generateRecommendation`.
Branch-dependent fields are `Option` (`none` = the JS object lacks the key). -/
structure Recommendation where
  criticality : String
  suggestedStrategy : String
  suggestedPosition : String
  reason : String
  hasIssue : Bool
  isSeoCritical : Option Bool
  seoCriticalType : Option String
  seoCriticalName : Option String
  seoImpact : Option String
  caveat : Option String
  currentStrategy : Option String
  currentPosition : Option String
  blockingScore : Option Nat
deriving DecidableEq

structure Script where
  src : Option String
  isInline : Bool
  type : Option String
  textContent : Option String
  category : String
  vendor : Option String
  position : ScriptPosition
  loading : ScriptLoading
  size : Option ScriptSize
  recommendation : Option Recommendation
deriving DecidableEq

/-! ### SEO-critical pattern table (`SEO_CRITICAL_PATTERNS`)

Every source pattern carries the `/i` flag; the embedding lowercases the
scanned text (`seoTest`) and states the patterns over lowercase letters,
which is equivalent for these ASCII patterns.
-/

structure SeoPatternConfig where
  patterns : List RE
  name : String
  reason : String
  seoImpact : String
  keepInHead : Bool
  caveat : String

open RE in
/-- `/"@type"\s*:\s*"(FAQPage|Article|...)"/i` -/
def schemaTypeRE : RE :=
  scat (lit ("\"@type\"")) (scat (star ws) (scat (lchr ':') (scat (star ws)
    (scat (lchr '\"')
      (scat (altList [lit ("faqpage"), lit ("article"), lit ("product"),
          lit ("organization"), lit ("website"), lit ("breadcrumblist"),
          lit ("localbusiness"), lit ("review"), lit ("event"),
          lit ("recipe"), lit ("howto"), lit ("videoobject")])
        (lchr '\"'))))))

open RE in
/-- `['"]` character class. -/
def quoteRE : RE := chr (fun c => c == '\'' || c == '\"')

open RE in
/-- The `schemaOrg` entry of `SEO_CRITICAL_PATTERNS`. -/
def schemaOrgConfig : SeoPatternConfig :=
     { patterns :=
         [ scat (lit ("@context")) (scat (star dot) (lit ("schema.org"))),
           schemaTypeRE ],
       name := "Structured Data (Schema.org)",
       reason := "Structured data (Schema.org) must remain in the document for search engines to properly index rich snippets. Moving or deferring this script may cause your FAQ, product, or article rich results to disappear from Google search results.",
       seoImpact := "high",
       keepInHead := true,
       caveat := "SEO Impact: Rich snippets and enhanced search results depend on this script being present and parseable by search engine crawlers." }

open RE in
/-- The `gtm` entry of `SEO_CRITICAL_PATTERNS`. -/
def gtmConfig : SeoPatternConfig :=
     { patterns :=
         [ lit ("gtm.start"),
           lit ("googletagmanager.com/gtm"),
           scat (lit ("gtm-")) (plus (chr (fun c => c.isDigit || (('a' ≤ c) && (c ≤ 'z'))))) ],
       name := "Google Tag Manager",
       reason := "Google Tag Manager initializes tracking and marketing pixels. It should use async but remain in the <head> to capture all pageviews accurately.",
       seoImpact := "medium",
       keepInHead := true,
       caveat := "Analytics Impact: Moving GTM to the end of the body may cause missed pageviews for users who leave quickly (bounce visitors), leading to inaccurate analytics data." }

open RE in
/-- The `googleAnalytics` entry of `SEO_CRITICAL_PATTERNS`. -/
def googleAnalyticsConfig : SeoPatternConfig :=
     { patterns :=
         [ scat (lit ("gtag")) (scat (star ws) (scat (lchr '(') (scat (star ws)
             (scat quoteRE (scat (lit ("config")) quoteRE))))),
           lit ("google-analytics.com/analytics"),
           lit ("googletagmanager.com/gtag"),
           scat (lit ("ga")) (scat (star ws) (scat (lchr '(') (scat (star ws)
             (scat quoteRE (scat (lit ("create")) quoteRE))))),
           lit ("googleanalyticsobject") ],
       name := "Google Analytics",
       reason := "Google Analytics tracking should remain in the <head> with async to capture all pageviews accurately without blocking render.",
       seoImpact := "medium",
       keepInHead := true,
       caveat := "Analytics Impact: Delayed analytics loading may miss 10-30% of pageviews from users who leave within the first few seconds." }

open RE in
/-- The `facebookPixel` entry of `SEO_CRITICAL_PATTERNS`. -/
def facebookPixelConfig : SeoPatternConfig :=
     { patterns :=
         [ scat (lit ("fbq")) (scat (star ws) (scat (lchr '(') (scat (star ws)
             (scat quoteRE (scat (lit ("init")) quoteRE))))),
           scat (lit ("connect.facebook.net")) (scat (star dot) (lit ("fbevents"))) ],
       name := "Facebook Pixel",
       reason := "Facebook Pixel should load early to track conversions accurately. Use async but keep in <head>.",
       seoImpact := "medium",
       keepInHead := true,
       caveat := "Marketing Impact: Delayed pixel loading may miss attribution for quick visitors, affecting ad campaign optimization and retargeting." }

open RE in
/-- The `consentManagement` entry of `SEO_CRITICAL_PATTERNS`. -/
def consentManagementConfig : SeoPatternConfig :=
     { patterns :=
         [ lit ("cookieconsent"), lit ("onetrust"), lit ("cookiebot"),
           lit ("trustarc"), lit ("privacymanager") ],
       name := "Cookie Consent",
       reason := "Cookie consent must load before any tracking scripts for GDPR/CCPA compliance. This is a legal requirement.",
       seoImpact := "critical",
       keepInHead := true,
       caveat := "Legal Requirement: This script MUST load before other tracking scripts. Moving it could result in compliance violations and potential fines." }

/-- The `jsonLd` entry of `SEO_CRITICAL_PATTERNS` (detected by the
`type="application/ld+json"` attribute, hence no content patterns). -/
def jsonLdConfig : SeoPatternConfig :=
  { patterns := [],
    name := "JSON-LD Structured Data",
    reason := "JSON-LD structured data is used by search engines to understand page content and generate rich results.",
    seoImpact := "high",
    keepInHead := true,
    caveat := "SEO Impact: This structured data powers rich snippets in search results (FAQs, reviews, products, etc.). Removing or breaking it will cause these enhanced listings to disappear." }

/-- `SEO_CRITICAL_PATTERNS`, in the source's insertion order. -/
def SEO_CRITICAL_PATTERNS : List (String × SeoPatternConfig) :=
  [ (("schemaOrg"), schemaOrgConfig),
    (("gtm"), gtmConfig),
    (("googleAnalytics"), googleAnalyticsConfig),
    (("facebookPixel"), facebookPixelConfig),
    (("consentManagement"), consentManagementConfig),
    (("jsonLd"), jsonLdConfig) ]

/-- `pattern.test(contentToCheck)` under the `/i` flag. -/
def seoTest (r : RE) (s : String) : Bool :=
  RE.reTest r (toLowerStr s)

/-- The text `detectSeoCriticalScript` scans: inline content for inline
scripts, `src` for external ones (JS `|| ''` for null fields). -/
def contentToCheck (script : Script) : String :=
  if script.isInline then script.textContent.getD ("")
  else script.src.getD ("")

/-- `detectSeoCriticalScript` from `recommendation-engine.js`: an explicit
`type="application/ld+json"` attribute returns the jsonLd policy
unconditionally; otherwise the pattern categories are scanned in table
order (entries with an empty pattern list are skipped) and the first
category with any matching pattern wins. -/
def detectSeoCriticalScript (script : Script) : Option (String × SeoPatternConfig) :=
  if script.type == some ("application/ld+json") then
    some (("jsonLd"), jsonLdConfig)
  else
    SEO_CRITICAL_PATTERNS.find? (fun kv =>
      !kv.2.patterns.isEmpty &&
      kv.2.patterns.any (fun p => seoTest p (contentToCheck script)))

/-! ### Category rule table and helper predicates (`recommendation-engine.js`) -/

structure CategoryRule where
  criticality : String
  suggestedStrategy : String
  suggestedPosition : String
  reason : String
deriving DecidableEq

/-- `categoryRules.other`. -/
def otherCategoryRule : CategoryRule :=
  ⟨"standard", "defer", "body-end",
   "Third-party script. Move to end of body and add defer attribute unless you know it's critical."⟩

/-- The `categoryRules` object; `none` models a key absent from the table. -/
def categoryRulesLookup : String → Option CategoryRule
  | "analytics" => some ⟨"critical", "async", "head",
      "Analytics scripts are critical for business insights but should use async to avoid blocking page render. This ensures accurate tracking while maintaining performance."⟩
  | "ab_testing" => some ⟨"critical", "head-sync", "head",
      "A/B testing tools must load early to prevent content flicker. However, use an anti-flicker snippet and set a timeout to prevent blocking."⟩
  | "consent" => some ⟨"critical", "head-sync", "head",
      "GDPR and privacy compliance requires cookie consent to load before other tracking scripts. Must be in the head."⟩
  | "chat" => some ⟨"non-essential", "lazy-load", "body-end",
      "Chat widgets are not needed for initial page load. Load them on scroll, click, or after a few seconds to improve performance."⟩
  | "fonts" => some ⟨"interactive", "preload-or-async", "head",
      "Fonts should be preloaded for better performance. Use font-display: swap to prevent invisible text during loading."⟩
  | "cdn" => some ⟨"critical", "head-defer", "head",
      "Core libraries from CDNs should use defer attribute. This allows parallel downloads while ensuring proper execution order."⟩
  | "advertising" => some ⟨"interactive", "defer", "body-end",
      "Ad scripts should defer loading to prevent blocking the main content. Place them at the end of the body."⟩
  | "social" => some ⟨"interactive", "defer", "body-end",
      "Social media widgets can be deferred as they're not critical for initial page load. Consider lazy-loading if they're below the fold."⟩
  | "maps" => some ⟨"interactive", "lazy-load", "body-end",
      "Map scripts are heavy and often below the fold. Load them on scroll or when the map container becomes visible."⟩
  | "video" => some ⟨"interactive", "lazy-load", "body-end",
      "Video player scripts should load only when needed. Use lazy-loading with a thumbnail image as placeholder."⟩
  | "payments" => some ⟨"critical", "context-dependent", "body-end",
      "Payment scripts are critical on checkout pages but not needed elsewhere. Consider loading them only on payment pages."⟩
  | "monitoring" => some ⟨"non-essential", "defer", "body-end",
      "Error monitoring and analytics tools don't need to block rendering. Use defer or async attributes."⟩
  | "crm" => some ⟨"non-essential", "lazy-load", "body-end",
      "CRM and marketing automation scripts can be lazy-loaded after initial page interaction."⟩
  | "popups" => some ⟨"non-essential", "lazy-load", "body-end",
      "Popup scripts should load after the main content. Consider delaying them by a few seconds or trigger on scroll."⟩
  | "email" => some ⟨"interactive", "defer", "body-end",
      "Email marketing forms can be deferred. They don't need to block the initial page load."⟩
  | "support" => some ⟨"non-essential", "lazy-load", "body-end",
      "Support widgets can be lazy-loaded on interaction to improve initial page load time."⟩
  | "internal" => some ⟨"standard", "defer", "context-dependent",
      "Internal scripts should generally use defer unless they're critical for initial render. Review each script individually."⟩
  | "other" => some otherCategoryRule
  | _ => none

/-- `isInHead(position)`. -/
def isInHead (position : ScriptPosition) : Bool :=
  position.location == "head"

/-- `hasNoLoadingStrategy(loading)` (`'none'` or JS-falsy strategy). -/
def hasNoLoadingStrategy (loading : ScriptLoading) : Bool :=
  loading.strategy == "none" || loading.strategy == ""

/-- `isNonCriticalScript(position, loading, criticality)` (faithful to the
source's two — partly redundant — disjuncts). -/
def isNonCriticalScript (position : ScriptPosition) (loading : ScriptLoading)
    (criticality : String) : Bool :=
  (isInHead position && hasNoLoadingStrategy loading && !(criticality == "critical")) ||
  (isInHead position && hasNoLoadingStrategy loading && criticality == "interactive")

/-- `needsAnalyticsOptimization(category, loading)`. -/
def needsAnalyticsOptimization (category : String) (loading : ScriptLoading) : Bool :=
  category == "analytics" && hasNoLoadingStrategy loading

/-- `needsChatOptimization(category, loading)`. -/
def needsChatOptimization (category : String) (loading : ScriptLoading) : Bool :=
  category == "chat" && !(loading.strategy == "lazy")

/-- `isNonEssentialBlocking(criticality, position, loading)`. -/
def isNonEssentialBlocking (criticality : String) (position : ScriptPosition)
    (loading : ScriptLoading) : Bool :=
  criticality == "non-essential" && isInHead position && hasNoLoadingStrategy loading

/-! ### Blocking score (`calculateBlockingScore`) -/

/-- Position weight block of `calculateBlockingScore`. -/
def positionScorePart (location : String) : Nat :=
  if location == "head" then 5
  else if location == "body-start" then 3
  else if location == "body-end" then 1
  else 0

/-- Loading-strategy block of `calculateBlockingScore`. -/
def loadingScorePart (strategy : String) : Nat :=
  if strategy == "none" || strategy == "sync" then 3
  else if strategy == "defer" then 1
  else if strategy == "async" then 0
  else 0

/-- Size block of `calculateBlockingScore` (`script.size &&
script.size.transferSize` is JS-truthy iff the field exists and is nonzero). -/
def sizeScorePart (size : Option ScriptSize) : Nat :=
  match size with
  | some sz =>
      if sz.transferSize ≠ 0 then
        if sz.transferSize > 100000 then 2
        else if sz.transferSize > 50000 then 1
        else 0
      else 0
  | none => 0

/-- `calculateBlockingScore(script)`: sum of the three weight blocks,
clamped into `[1, 10]` by `Math.min(Math.max(score, 1), 10)`. -/
def calculateBlockingScore (script : Script) : Nat :=
  min (max (positionScorePart script.position.location +
            loadingScorePart script.loading.strategy +
            sizeScorePart script.size) 1) 10

/-! ### Inline-content heuristic (`analyzeInlineScript`) -/

/-- `analyzeInlineScript(content)`; `none`/empty content is JS-falsy. -/
def analyzeInlineScript (content : Option String) : String :=
  match content with
  | none => "custom"
  | some c =>
    if c == "" then "custom"
    else
      let lower := toLowerStr c
      if strIncludes lower ("config") || strIncludes lower ("init") ||
         strIncludes lower ("setup") ||
         (strIncludes lower ("window.") && strIncludes lower ("=")) then "critical"
      else if strIncludes lower ("addeventlistener") || strIncludes lower ("onclick") ||
              strIncludes lower ("jquery") || strIncludes lower ("$") then "interactive"
      else if strIncludes lower ("track") || strIncludes lower ("analytics") ||
              strIncludes lower ("gtag") || strIncludes lower ("fbq") then "critical"
      else "custom"

/-! ### `generateRecommendation` -/

/-- `generateRecommendation(script)`: the ordered decision cascade of
`recommendation-engine.js` (inline SEO-critical → inline heuristic →
external SEO-critical → category rules).  The presentational
`codeExample`/`currentCode` strings are outside the model. -/
def generateRecommendation (script : Script) : Recommendation :=
  let seoCritical := detectSeoCriticalScript script
  if script.isInline then
    match seoCritical with
    | some seo =>
        { criticality := "seo-critical",
          suggestedStrategy := "keep-as-is",
          suggestedPosition := script.position.location,
          reason := seo.2.reason,
          hasIssue := false,
          isSeoCritical := some true,
          seoCriticalType := some seo.1,
          seoCriticalName := some seo.2.name,
          seoImpact := some seo.2.seoImpact,
          caveat := some seo.2.caveat,
          currentStrategy := none,
          currentPosition := none,
          blockingScore := none }
    | none =>
        let inlineCriticality := analyzeInlineScript script.textContent
        if inlineCriticality == "critical" then
          { criticality := "critical",
            suggestedStrategy := "keep-inline",
            suggestedPosition := "head",
            reason := "This inline script appears to contain configuration or initialization code. Keep it in the head but ensure it's minimal.",
            hasIssue := false,
            isSeoCritical := none, seoCriticalType := none, seoCriticalName := none,
            seoImpact := none, caveat := none,
            currentStrategy := none, currentPosition := none, blockingScore := none }
        else
          { criticality := inlineCriticality,
            suggestedStrategy := "move-to-end",
            suggestedPosition := "body-end",
            reason := "Move non-critical inline scripts to the end of the body to avoid blocking rendering.",
            hasIssue := script.position.location == "head",
            isSeoCritical := none, seoCriticalType := none, seoCriticalName := none,
            seoImpact := none, caveat := none,
            currentStrategy := none, currentPosition := none, blockingScore := none }
  else
    match seoCritical with
    | some seo =>
        let currentlyOptimal :=
          script.loading.strategy == "async" ||
          (seo.1 == "consentManagement" && script.position.location == "head")
        { criticality := "seo-critical",
          suggestedStrategy :=
            if seo.1 == "consentManagement" then "keep-sync-in-head" else "async",
          suggestedPosition := "head",
          reason := seo.2.reason,
          hasIssue := !currentlyOptimal && script.loading.strategy == "none",
          isSeoCritical := some true,
          seoCriticalType := some seo.1,
          seoCriticalName := some seo.2.name,
          seoImpact := some seo.2.seoImpact,
          caveat := some seo.2.caveat,
          currentStrategy :=
            some (if script.loading.strategy == "" then "none" else script.loading.strategy),
          currentPosition := some script.position.location,
          blockingScore := some (calculateBlockingScore script) }
    | none =>
        let rules := (categoryRulesLookup script.category).getD otherCategoryRule
        let hasIssue :=
          isNonCriticalScript script.position script.loading rules.criticality ||
          needsAnalyticsOptimization script.category script.loading ||
          needsChatOptimization script.category script.loading ||
          isNonEssentialBlocking rules.criticality script.position script.loading ||
          script.loading.isBlocking
        let enhancedReason :=
          let r0 := rules.reason
          let r1 :=
            if script.vendor == some ("Google Analytics") &&
               !(script.loading.strategy == "async") then
              r0 ++ " Google Analytics officially recommends async loading for optimal performance without data loss."
            else r0
          let r2 :=
            if script.vendor == some ("Google Tag Manager") &&
               !(script.loading.strategy == "async") then
              r1 ++ " GTM works best with async loading or delayed injection on user interaction."
            else r1
          let r3 :=
            if (match script.vendor with
                | some v => strIncludes v ("jQuery")
                | none => false) &&
               script.position.location == "head" && script.loading.strategy == "none" then
              r2 ++ " Consider moving jQuery to end of body with defer, or migrate to modern vanilla JavaScript."
            else r2
          let r4 :=
            if script.category == "chat" && !(script.loading.strategy == "lazy") then
              r3 ++ " Most users never interact with chat widgets - lazy-loading saves bandwidth and improves performance."
            else r3
          if script.category == "consent" then
            r4 ++ " Note: This must load before other tracking scripts for legal compliance."
          else r4
        { criticality := rules.criticality,
          suggestedStrategy := rules.suggestedStrategy,
          suggestedPosition := rules.suggestedPosition,
          reason := enhancedReason,
          hasIssue := hasIssue,
          isSeoCritical := none, seoCriticalType := none, seoCriticalName := none,
          seoImpact := none, caveat := none,
          currentStrategy :=
            some (if script.loading.strategy == "" then "none" else script.loading.strategy),
          currentPosition := some script.position.location,
          blockingScore := some (calculateBlockingScore script) }

/-! ### Insight aggregation (`generateInsights`) -/

/-- Entry of `insights.seoCriticalScripts`. -/
structure SeoScriptEntry where
  name : Option String
  type : Option String
  caveat : Option String
deriving DecidableEq

/-- `insights` result object. -/
structure Insights where
  totalBlockingTime : Nat
  potentialSavings : Nat
  mainIssues : List String
  issueCount : Nat
  hasNoIssues : Bool
  seoCriticalScripts : List SeoScriptEntry
  seoCriticalCount : Nat
  successMessage : Option String
  seoCriticalNote : Option String
deriving DecidableEq

/-- JS truthiness of `script.recommendation?.isSeoCritical`. -/
def recIsSeoCritical (s : Script) : Bool :=
  match s.recommendation with
  | some r => r.isSeoCritical.getD false
  | none => false

/-- The `headScriptsSync` bucket filter of `generateInsights`. -/
def headScriptsSync (scripts : List Script) : List Script :=
  scripts.filter (fun s =>
    s.position.location == "head" &&
    s.loading.strategy == "none" &&
    !s.isInline &&
    !recIsSeoCritical s)

/-- The `analyticsNoDefer` bucket filter of `generateInsights`. -/
def analyticsNoDefer (scripts : List Script) : List Script :=
  scripts.filter (fun s =>
    s.category == "analytics" &&
    s.loading.strategy == "none" &&
    !recIsSeoCritical s)

/-- The `chatWidgetsSync` bucket filter of `generateInsights` (note: unlike
the other two buckets, the source has no `isSeoCritical` exclusion here). -/
def chatWidgetsSync (scripts : List Script) : List Script :=
  scripts.filter (fun s =>
    s.category == "chat" &&
    !(s.loading.strategy == "lazy"))

/-- Per-script contribution to `totalBlockingTime` (JS truthiness of
`script.size && script.size.transferSize`; `Math.floor` is `Nat` division). -/
def blockingTimeContribution (s : Script) : Nat :=
  if (match s.recommendation with
      | some r => r.hasIssue && !(r.isSeoCritical.getD false)
      | none => false) then
    match s.size with
    | some sz => if sz.transferSize ≠ 0 then sz.transferSize / 1000 else 100
    | none => 100
  else 0

/-- Pluralization helper for the issue strings (`count > 1 ? 's' : ''`). -/
def pluralS (n : Nat) : String :=
  if n > 1 then "s" else ""

/-- `generateInsights(scripts)` from `recommendation-engine.js`. -/
def generateInsights (scripts : List Script) : Insights :=
  let seoCriticalScripts : List SeoScriptEntry :=
    scripts.filterMap (fun s =>
      match s.recommendation with
      | some r =>
          if r.isSeoCritical.getD false then
            some ⟨r.seoCriticalName, r.seoCriticalType, r.caveat⟩
          else none
      | none => none)
  let hN := (headScriptsSync scripts).length
  let aN := (analyticsNoDefer scripts).length
  let cN := (chatWidgetsSync scripts).length
  let issues : List String :=
    (if hN > 0 then
       [toString hN ++ " synchronous script" ++ pluralS hN ++ " in <head> blocking render"]
     else []) ++
    (if aN > 0 then
       [toString aN ++ " analytics script" ++ pluralS aN ++ " should use async attribute"]
     else []) ++
    (if cN > 0 then
       [toString cN ++ " chat widget" ++ pluralS cN ++ " should be lazy-loaded"]
     else [])
  let savings0 := (if aN > 0 then aN * 150 else 0) + (if cN > 0 then cN * 150 else 0)
  let totalBlockingTime := (scripts.map blockingTimeContribution).sum
  let potentialSavings :=
    if savings0 == 0 && hN > 0 then hN * 150 else savings0
  { totalBlockingTime := totalBlockingTime,
    potentialSavings := min potentialSavings totalBlockingTime,
    mainIssues := issues,
    issueCount := issues.length,
    hasNoIssues := issues.length == 0,
    seoCriticalScripts := seoCriticalScripts,
    seoCriticalCount := seoCriticalScripts.length,
    successMessage :=
      if issues.length == 0 then
        if seoCriticalScripts.length > 0 then
          some ("No render-blocking issues found. Your SEO and analytics scripts are correctly configured.")
        else
          some ("Excellent! No render-blocking issues detected. Your scripts are well-optimized.")
      else none,
    seoCriticalNote :=
      if issues.length == 0 && seoCriticalScripts.length > 0 then
        some ("Found " ++ toString seoCriticalScripts.length ++ " SEO-critical script" ++
              pluralS seoCriticalScripts.length ++
              " that should remain in <head> for proper indexing and analytics.")
      else none }

/-! ### URL parsing (model of the platform's `new URL` constructor)

`domain-matcher.js` relies on the WHATWG `URL` constructor only for:
throwing on unparsable absolute URLs, `hostname` (lowercased) and
`pathname`.  The model below covers that surface: a scheme, optional
`//authority` (mandatory and slash-tolerant for the special schemes),
userinfo/port stripping and a small forbidden-host-character check.
IPv6 literals and percent-encoded hosts are conservatively rejected —
no claim depends on them.
-/

structure URLParts where
  scheme : String
  hostname : String
  pathname : String
deriving DecidableEq

/-- Split a character list at the first `:` (scheme separator). -/
def splitAtColon : List Char → List Char → Option (List Char × List Char)
  | [], _ => none
  | ':' :: rest, acc => some (acc.reverse, rest)
  | c :: rest, acc => splitAtColon rest (c :: acc)

/-- Authority after the last `@` (userinfo is dropped by the URL parser). -/
def dropUserinfo (authority : List Char) : List Char :=
  (authority.reverse.takeWhile (fun c => !(c == '@'))).reverse

/-- Strip a `:port` suffix; a non-numeric port is a parse error (`none`). -/
def stripPortChars (hostPort : List Char) : Option (List Char) :=
  let host := hostPort.takeWhile (fun c => !(c == ':'))
  let rest := hostPort.drop host.length
  match rest with
  | [] => some host
  | _ :: port => if port.all Char.isDigit then some host else none

/-- Characters that make a host invalid in this model. -/
def forbiddenHostChar (c : Char) : Bool :=
  c == ' ' || c == '#' || c == '?' || c == '/' || c == '@' || c == ':' ||
  c == '[' || c == ']' || c == '\\' || c == '%' || c == '<' || c == '>' ||
  c == '^' || c == '|' || c == '\"' || c == Char.ofNat 123 || c == Char.ofNat 125 ||
  c.toNat < 32

/-- Schemes whose URLs carry a mandatory authority (WHATWG special schemes). -/
def specialSchemes : List String := ["http", "https", "ws", "wss", "ftp", "file"]

/-- Model of `new URL(url)`: `.error` models the thrown `TypeError`. -/
def parseURL (url : String) : Except String URLParts :=
  match splitAtColon url.toList [] with
  | none => Except.error ("Invalid URL")
  | some (schemeCs, rest) =>
    match schemeCs with
    | [] => Except.error ("Invalid URL")
    | c0 :: restSc =>
      if !c0.isAlpha ||
         !(restSc.all (fun c => c.isAlphanum || c == '+' || c == '-' || c == '.')) then
        Except.error ("Invalid URL")
      else
        let scheme := toLowerStr (String.mk schemeCs)
        if specialSchemes.contains scheme then
          let afterSlashes := rest.dropWhile (fun c => c == '/' || c == '\\')
          let authority :=
            afterSlashes.takeWhile (fun c => !(c == '/' || c == '?' || c == '#' || c == '\\'))
          match stripPortChars (dropUserinfo authority) with
          | none => Except.error ("Invalid URL")
          | some host =>
            if host.isEmpty then Except.error ("Invalid URL")
            else if host.any forbiddenHostChar then Except.error ("Invalid URL")
            else
              let afterAuthority := afterSlashes.drop authority.length
              let path := afterAuthority.takeWhile (fun c => !(c == '?' || c == '#'))
              Except.ok ⟨scheme, toLowerStr (String.mk host),
                         if path.isEmpty then "/" else String.mk path⟩
        else
          Except.ok ⟨scheme, "",
                     String.mk (rest.takeWhile (fun c => !(c == '?' || c == '#')))⟩

/-! ### Vendor matching (`domain-matcher.js`) -/

structure VendorInfo where
  name : String
  criticality : String
  loadStrategy : String
  description : Option String
  note : Option String
deriving DecidableEq

/-- Result object of `matchVendor` (the `...info` spread carries
`description`/`note`; `error` is set only by the catch branch). -/
structure VendorMatch where
  category : String
  name : String
  criticality : String
  loadStrategy : String
  description : Option String
  error : Option String
  note : Option String
deriving DecidableEq

/-- Compile the pattern string handed to `new RegExp(...)` by the matcher.
The constructed strings contain only literals, `\`-escapes, `.` and `*`
(the latter acting as a quantifier on the preceding atom, exactly as in
JS regex syntax). -/
def compileRegexAux : List Char → RE → Option RE → RE
  | [], acc, none => acc
  | [], acc, some r => RE.cat acc r
  | '\\' :: c :: rest, acc, none => compileRegexAux rest acc (some (RE.lchr c))
  | '\\' :: c :: rest, acc, some r => compileRegexAux rest (RE.cat acc r) (some (RE.lchr c))
  | ['\\'], acc, none => acc
  | ['\\'], acc, some r => RE.cat acc r
  | '*' :: rest, acc, some r => compileRegexAux rest acc (some (RE.star r))
  | '*' :: rest, acc, none => compileRegexAux rest acc none
  | '.' :: rest, acc, none => compileRegexAux rest acc (some RE.dot)
  | '.' :: rest, acc, some r => compileRegexAux rest (RE.cat acc r) (some RE.dot)
  | c :: rest, acc, none => compileRegexAux rest acc (some (RE.lchr c))
  | c :: rest, acc, some r => compileRegexAux rest (RE.cat acc r) (some (RE.lchr c))

def compileRegexString (pat : String) : RE :=
  compileRegexAux pat.toList RE.eps none

/-- JS `s.replace(/c/g, repl)` for a single-character pattern: global
regex replacement of one character is character-wise substitution. -/
def replaceCharAll (c : Char) (repl : List Char) (cs : List Char) : List Char :=
  cs.foldr (fun x acc => (if x == c then repl else [x]) ++ acc) []

/-- The pattern string `domain.replace(/\*/g, '.*').replace(/\./g, '\\.')`
(the second replace also escapes the dots the first one introduced,
exactly as in the source). -/
def vendorPatternString (domain : String) : String :=
  String.mk (replaceCharAll '.' ['\\', '.']
    (replaceCharAll '*' ['.', '*'] domain.toList))

/-- The table scan of `matchVendor` (wildcard, path-pattern, then
exact/subdomain; categories and vendors in table order, first match wins). -/
def findVendorMatch (db : List (String × List (String × VendorInfo)))
    (hostname fullPath : String) : Option (String × VendorInfo) :=
  db.findSome? (fun catVendors =>
    catVendors.2.findSome? (fun dv =>
      if strIncludes dv.1 ("*") then
        (if RE.reTest (compileRegexString (vendorPatternString dv.1)) hostname then
           some (catVendors.1, dv.2)
         else none)
      else if strIncludes dv.1 ("/") then
        (if RE.reTest (compileRegexString (vendorPatternString dv.1)) fullPath then
           some (catVendors.1, dv.2)
         else none)
      else if hostname == dv.1 || strEndsWith hostname ("." ++ dv.1) then
        some (catVendors.1, dv.2)
      else none))

/-! ### Readable-name extraction (`extractReadableName`) -/

/-- Split a character list on a separator (JS `String.prototype.split`). -/
def splitCharAux (sep : Char) (cur : List Char) : List Char → List (List Char)
  | [] => [cur.reverse]
  | c :: rest =>
      if c == sep then cur.reverse :: splitCharAux sep [] rest
      else splitCharAux sep (c :: cur) rest

def splitCharList (sep : Char) (cs : List Char) : List (List Char) :=
  splitCharAux sep [] cs

/-- JS `arr.join(sep)` for a one-character separator. -/
def joinChar (sep : Char) : List (List Char) → List Char
  | [] => []
  | [w] => w
  | w :: ws => w ++ sep :: joinChar sep ws

/-- `word.charAt(0).toUpperCase() + word.slice(1)`. -/
def capWord : List Char → List Char
  | [] => []
  | c :: rest => c.toUpper :: rest

/-- `.split(' ').map(capitalize).join(' ')` after mapping `[-_]` to spaces. -/
def capitalizeWords (cs : List Char) : List Char :=
  joinChar ' ' ((splitCharList ' ' cs).map capWord)

/-- One alternative of the prefix regex: a literal label followed by `.`. -/
def matchLabelLit (l : List Char) (p : String) : Option Nat :=
  if hasPrefixChars p.toList l then some p.toList.length else none

/-- The `www\d?` alternative (optional digit, greedy, then `.`). -/
def matchWWW : List Char → Option Nat
  | 'w' :: 'w' :: 'w' :: rest =>
      match rest with
      | '.' :: _ => some 4
      | d :: '.' :: _ => if d.isDigit then some 5 else none
      | _ => none
  | _ => none

/-- `hostname.replace(/^(www\d?|cdn|static|assets|js|scripts?|img|images)\./i, '')`. -/
def stripHostLabel (h : String) : String :=
  let l := (toLowerStr h).toList
  let matched :=
    matchWWW l <|> matchLabelLit l ("cdn.") <|> matchLabelLit l ("static.") <|>
    matchLabelLit l ("assets.") <|> matchLabelLit l ("js.") <|>
    matchLabelLit l ("scripts.") <|> matchLabelLit l ("script.") <|>
    matchLabelLit l ("img.") <|> matchLabelLit l ("images.")
  match matched with
  | some n => String.mk (h.toList.drop n)
  | none => h

/-- `extractReadableName(hostname)` from `domain-matcher.js`. -/
def extractReadableName (hostname : String) : String :=
  if hostname == "" then "External Script"
  else
    let cleaned := stripHostLabel hostname
    let parts := splitCharList '.' cleaned.toList
    if parts.length ≥ 2 then
      let mainDomain := parts.getD (parts.length - 2) []
      let formatted :=
        String.mk (capitalizeWords
          (mainDomain.map (fun ch => if ch == '-' || ch == '_' then ' ' else ch)))
      if strIncludes hostname ("cdn.") then formatted ++ " CDN"
      else if strIncludes hostname ("api.") then formatted ++ " API"
      else if strIncludes hostname ("analytics.") then formatted ++ " Analytics"
      else formatted
    else hostname

/-! ### Criticality / load-strategy inference and `matchVendor` -/

/-- Attribute shape the matcher's optional `loading` argument carries. -/
structure VendorLoading where
  async : Bool
  defer : Bool
deriving DecidableEq

/-- `inferCriticality(url, position, loading)`. -/
def inferCriticality (url : String) (position : Option ScriptPosition)
    (loading : Option VendorLoading) : String :=
  let urlLower := toLowerStr url
  let asyncFlag := match loading with | some lo => lo.async | none => false
  let deferFlag := match loading with | some lo => lo.defer | none => false
  let inHead := match position with | some p => p.location == "head" | none => false
  if inHead && !asyncFlag && !deferFlag then "critical"
  else if strIncludes urlLower ("analytics") || strIncludes urlLower ("tracking") then
    "non-essential"
  else if strIncludes urlLower ("chat") || strIncludes urlLower ("widget") then
    "non-essential"
  else "interactive"

/-- `inferLoadStrategy(position, loading)`. -/
def inferLoadStrategy (position : Option ScriptPosition)
    (loading : Option VendorLoading) : String :=
  let asyncFlag := match loading with | some lo => lo.async | none => false
  let deferFlag := match loading with | some lo => lo.defer | none => false
  let loc := match position with | some p => p.location | none => ""
  if loc == "head" && !asyncFlag && !deferFlag then "defer"
  else if loc == "body" && !asyncFlag && !deferFlag then "async"
  else "current"

/-- `matchVendor(url, position, loading)` from `domain-matcher.js`.  The
static vendor table and the page hostname (`window.location.hostname`,
absent on the server) are explicit parameters; the `try/catch` around the
`URL` constructor is the `Except` match. -/
def matchVendor (db : List (String × List (String × VendorInfo)))
    (windowHostname : Option String) (url : String)
    (position : Option ScriptPosition) (loading : Option VendorLoading) : VendorMatch :=
  if url == "" || strStartsWith url ("/") || strStartsWith url (".") then
    ⟨"internal", "Internal Script", "standard", "defer", none, none, none⟩
  else
    match parseURL url with
    | Except.error e =>
        ⟨"other", "External Script", "standard", "defer", none, some e, none⟩
    | Except.ok u =>
      let hostname := u.hostname
      let fullPath := hostname ++ u.pathname
      match findVendorMatch db hostname fullPath with
      | some catInfo =>
          ⟨catInfo.1, catInfo.2.name, catInfo.2.criticality, catInfo.2.loadStrategy,
           catInfo.2.description, none, catInfo.2.note⟩
      | none =>
        if (match windowHostname with | some wh => hostname == wh | none => false) then
          ⟨"internal", "Internal Script", "standard", "defer", none, none, none⟩
        else
          ⟨"third_party", extractReadableName hostname,
           inferCriticality url position loading,
           inferLoadStrategy position loading,
           some ("Third-party script from " ++ hostname), none, none⟩

/-- Modelled from the spec: the static vendor-domain policy table
(`third-party-vendors.json`) is imported by `domain-matcher.js` but is not
among the sources; the entries below follow the spec's and the source
comments' examples (a `google-analytics.com` analytics entry, a
`*.facebook.com` wildcard entry and a `facebook.net/*/fbevents.js`
path-pattern entry).  It is used only to instantiate witness inputs; the
general theorems quantify over an arbitrary table. -/
def specVendorTable : List (String × List (String × VendorInfo)) :=
  [ (("analytics"),
     [ (("google-analytics.com"),
        ⟨"Google Analytics", "non-essential", "async", none, none⟩) ]),
    (("social"),
     [ (("*.facebook.com"), ⟨"Facebook", "non-essential", "defer", none, none⟩),
       (("facebook.net/*/fbevents.js"),
        ⟨"Facebook Pixel", "non-essential", "async", none, none⟩) ]) ]

/-! ### Above-the-fold pruner (`cloneAboveTheFold` in `part_016`)

A DOM node is either an element — carrying its tag, attributes, the
`getBoundingClientRect().top` reading in the rendered snapshot, and its
child nodes — or a non-element node (text, comment), which
`cloneAboveTheFold` clones verbatim.  `cloneNode(false)` copies the tag
and attributes only; the model keeps the `top` reading on the clone (it is
never re-read).  The fold height is an integer pixel count; `top` may be
negative for content scrolled or positioned above the viewport origin.
-/

inductive DomNode where
  | elem (tag : String) (attrs : List (String × String)) (top : Int)
         (children : List DomNode)
  | text (content : String)

mutual

/-- `cloneAboveTheFold(element, maxHeight)`: `none` models returning `null`. -/
def cloneAboveTheFold (maxHeight : Int) : DomNode → Option DomNode
  | DomNode.text s => some (DomNode.text s)
  | DomNode.elem tag attrs top children =>
      if maxHeight ≤ top then none
      else some (DomNode.elem tag attrs top (clonePruneList maxHeight children))

/-- The child loop (`for child of element.childNodes` with truthy append). -/
def clonePruneList (maxHeight : Int) : List DomNode → List DomNode
  | [] => []
  | c :: cs =>
      match cloneAboveTheFold maxHeight c with
      | some c2 => c2 :: clonePruneList maxHeight cs
      | none => clonePruneList maxHeight cs

end

mutual

/-- Is every element's `top` (the node's own and all descendants') below `m`? -/
def topsBelow (m : Int) : DomNode → Bool
  | DomNode.text _ => true
  | DomNode.elem _ _ top children => decide (top < m) && topsBelowList m children

def topsBelowList (m : Int) : List DomNode → Bool
  | [] => true
  | c :: cs => topsBelow m c && topsBelowList m cs

end

/-- Is the node an element whose `top` is non-negative? -/
def elemWithNonnegTop : DomNode → Bool
  | DomNode.elem _ _ top _ => decide (0 ≤ top)
  | DomNode.text _ => false

/-! ### Extractor position zoning (`getElementPosition` in `part_019`)

The browser-side helper reads the parent tag, and for direct `<body>`
children zones by thirds of `document.body.children`.  The JS division is
float division on small integers; the comparisons `index < total/3` and
`index > total*2/3` are stated equivalently over integers as
`3*index < total` and `3*index > 2*total`. -/
def getElementPosition (parentTag : Option String) (index totalChildren : Int) : String :=
  if parentTag == some ("head") then "head"
  else if parentTag == some ("body") then
    if 3 * index < totalChildren then "body-start"
    else if 3 * index > 2 * totalChildren then "body-end"
    else "body-middle"
  else "body-middle"

/-! ## Claim theorems -/

/-- Claim C4: for every script, `calculateBlockingScore` returns an integer
between 1 and 10 inclusive, and for two scripts identical in loading
strategy and size, moving `position.location` from `body-end` to `head`
never decreases the score. -/
theorem c4_blocking_score_bounds_monotone :
    (∀ s : Script, 1 ≤ calculateBlockingScore s ∧ calculateBlockingScore s ≤ 10) ∧
    (∀ s1 s2 : Script,
      s1.loading.strategy = s2.loading.strategy → s1.size = s2.size →
      s1.position.location = "body-end" → s2.position.location = "head" →
      calculateBlockingScore s1 ≤ calculateBlockingScore s2) := by
  constructor
  · intro s
    unfold calculateBlockingScore
    omega
  · intro s1 s2 hstrat hsize hl1 hl2
    have h1 : positionScorePart ("body-end") = 1 := rfl
    have h2 : positionScorePart ("head") = 5 := rfl
    simp only [calculateBlockingScore, hl1, hl2, hstrat, hsize, h1, h2]
    omega

/-- A synchronous body-end script and its head twin (same strategy, size). -/
def c4BodyEndScript : Script :=
  ⟨some ("https://example.com/a.js"), false, some ("text/javascript"), none,
   "other", none, ⟨("body-end")⟩, ⟨("none"), false⟩, some ⟨60000⟩, none⟩

def c4HeadScript : Script :=
  ⟨some ("https://example.com/a.js"), false, some ("text/javascript"), none,
   "other", none, ⟨("head")⟩, ⟨("none"), true⟩, some ⟨60000⟩, none⟩

/-- Witness for C4, instantiating the position-monotonicity part at a
concrete body-end/head pair with equal strategy and size. -/
theorem c4_blocking_score_bounds_monotone_witness :
    calculateBlockingScore c4BodyEndScript ≤ calculateBlockingScore c4HeadScript :=
  c4_blocking_score_bounds_monotone.2 c4BodyEndScript c4HeadScript rfl rfl rfl rfl

/-- Claim C5: for every script list, the insights object satisfies
`potentialSavings ≤ totalBlockingTime` (the savings estimate is capped by
the blocking time it is drawn from). -/
theorem c5_savings_cap (scripts : List Script) :
    (generateInsights scripts).potentialSavings ≤
    (generateInsights scripts).totalBlockingTime := by
  simp only [generateInsights]
  exact Nat.min_le_right _ _

/-- Claim C3 (counterexample): the inline-critical branch of
`generateRecommendation` returns a recommendation without a
`blockingScore` field, refuting "every branch computes blockingScore". -/
def inlineConfigScript : Script :=
  ⟨none, true, some ("text/javascript"), some ("window.appConfig = 1;"),
   "internal", none, ⟨("head")⟩, ⟨("none"), true⟩, none, none⟩

/-- Claim C3 is false as stated: this concrete inline script's
recommendation carries no `blockingScore`. -/
theorem c3_inline_no_blocking_score_counterexample :
    inlineConfigScript.isInline = true ∧
    (generateRecommendation inlineConfigScript).blockingScore = none := by
  constructor
  · rfl
  · decide

/-- Claim C3 (amended): `generateRecommendation` computes `blockingScore`
on its two external branches only; the three inline branches omit it. -/
theorem c3_blocking_score_amended (s : Script) :
    (generateRecommendation s).blockingScore =
      if s.isInline then none else some (calculateBlockingScore s) := by
  unfold generateRecommendation
  by_cases hs : s.isInline = true
  · simp only [hs, if_true]
    cases hd : detectSeoCriticalScript s with
    | some seo => simp
    | none =>
        simp only
        split <;> simp
  · have hs2 : s.isInline = false := by
      cases h : s.isInline
      · rfl
      · exact absurd h hs
    simp only [hs2, Bool.false_eq_true, if_false]
    cases hd : detectSeoCriticalScript s with
    | some seo => simp
    | none => simp

/-- Claim C10: `calculateBlockingScore` assigns position weight 5 to
`head`, 3 to `body-start`, 1 to `body-end` and 0 to every other location
(including `body-middle`, which the extractor's zoning helper actually
produces), so a `body-middle` script never outscores an otherwise
identical `body-end` script. -/
theorem c10_position_weights :
    positionScorePart ("head") = 5 ∧
    positionScorePart ("body-start") = 3 ∧
    positionScorePart ("body-end") = 1 ∧
    (∀ loc : String, loc ≠ "head" → loc ≠ "body-start" → loc ≠ "body-end" →
      positionScorePart loc = 0) ∧
    (∀ s : Script,
      calculateBlockingScore { s with position := ⟨("body-middle")⟩ } ≤
      calculateBlockingScore { s with position := ⟨("body-end")⟩ }) ∧
    getElementPosition (some ("body")) 1 3 = "body-middle" := by
  refine ⟨rfl, rfl, rfl, ?_, ?_, by decide⟩
  · intro loc h1 h2 h3
    simp only [positionScorePart, beq_iff_eq, h1, h2, h3, if_false]
  · intro s
    have h1 : positionScorePart ("body-middle") = 0 := rfl
    have h2 : positionScorePart ("body-end") = 1 := rfl
    simp only [calculateBlockingScore, h1, h2]
    omega

/-- Witness for C10: the zero weight and the comparison instantiated at
`body-middle` (a location distinct from the three weighted ones). -/
theorem c10_position_weights_witness :
    positionScorePart ("body-middle") = 0 :=
  c10_position_weights.2.2.2.1 ("body-middle") (by decide) (by decide) (by decide)

/-! ### Claim C1: SEO-critical scripts versus the three issue buckets -/

/-- An external chat-category script whose URL matches the
consent-management SEO pattern (before recommendation attachment). -/
def c1ChatSeoBase : Script :=
  ⟨some ("https://widget.example-chat.com/cookieconsent.js"), false,
   some ("text/javascript"), none, "chat", some ("Chat Widget"),
   ⟨("body-end")⟩, ⟨("none"), false⟩, none, none⟩

/-- The same script with its recommendation attached, as the API pipeline
does before calling `generateInsights`. -/
def c1ChatSeoScript : Script :=
  { c1ChatSeoBase with recommendation := some (generateRecommendation c1ChatSeoBase) }

/-- Claim C1 is false as stated: an SEO-critical resource of category
`chat` without lazy loading lands in the `chatWidgetsSync` bucket and
contributes to `issueCount`, because that bucket's filter has no
`isSeoCritical` exclusion. -/
theorem c1_chat_bucket_counterexample :
    recIsSeoCritical c1ChatSeoScript = true ∧
    chatWidgetsSync [c1ChatSeoScript] = [c1ChatSeoScript] ∧
    (generateInsights [c1ChatSeoScript]).issueCount = 1 := by
  refine ⟨by decide, by decide, by decide⟩

/-- Claim C1 (amended): `generateInsights` excludes SEO-critical resources
from the head-synchronous and analytics buckets, but not from the chat
bucket — an SEO-critical chat-category script without a lazy strategy
still feeds `mainIssues`/`issueCount`. -/
theorem c1_seo_disjointness_amended :
    (∀ (scripts : List Script) (s : Script), s ∈ headScriptsSync scripts →
        recIsSeoCritical s = false) ∧
    (∀ (scripts : List Script) (s : Script), s ∈ analyticsNoDefer scripts →
        recIsSeoCritical s = false) ∧
    (∃ (scripts : List Script) (s : Script),
        s ∈ chatWidgetsSync scripts ∧ recIsSeoCritical s = true) := by
  refine ⟨?_, ?_, [c1ChatSeoScript], c1ChatSeoScript, by decide, by decide⟩
  · intro scripts s hs
    have hp := (List.mem_filter.mp hs).2
    simp only [Bool.and_eq_true, Bool.not_eq_true'] at hp
    exact hp.2
  · intro scripts s hs
    have hp := (List.mem_filter.mp hs).2
    simp only [Bool.and_eq_true, Bool.not_eq_true'] at hp
    exact hp.2

/-- An ordinary (non-SEO-critical) synchronous head script. -/
def c1OrdinaryHeadScript : Script :=
  ⟨some ("https://example.com/app.js"), false, some ("text/javascript"), none,
   "other", none, ⟨("head")⟩, ⟨("none"), true⟩, none, none⟩

/-- An ordinary analytics script without a loading strategy. -/
def c1OrdinaryAnalyticsScript : Script :=
  ⟨some ("https://stats.example.com/t.js"), false, some ("text/javascript"), none,
   "analytics", none, ⟨("head")⟩, ⟨("none"), true⟩, none, none⟩

/-- Witness for C1 (amended), instantiating both bucket-exclusion parts on
concrete bucket members. -/
theorem c1_seo_disjointness_witness :
    recIsSeoCritical c1OrdinaryHeadScript = false ∧
    recIsSeoCritical c1OrdinaryAnalyticsScript = false :=
  ⟨c1_seo_disjointness_amended.1 [c1OrdinaryHeadScript] c1OrdinaryHeadScript (by decide),
   c1_seo_disjointness_amended.2.1 [c1OrdinaryAnalyticsScript] c1OrdinaryAnalyticsScript
     (by decide)⟩

/-! ### Claim C2: consent-management externals in head -/

/-- An external consent-management script (URL matches `cookieconsent`)
sitting synchronously in the head. -/
def c2ConsentHeadScript : Script :=
  ⟨some ("https://cdn.cookieconsent.com/consent.js"), false,
   some ("text/javascript"), none, "consent", some ("Cookie Consent"),
   ⟨("head")⟩, ⟨("none"), true⟩, none, none⟩

/-- Claim C2 is false as stated: the consent-management script in head
with strategy `none` does get `keep-sync-in-head`, but its `hasIssue` is
`false` (head placement makes it "currently optimal"), not `true`. -/
theorem c2_consent_head_counterexample :
    (detectSeoCriticalScript c2ConsentHeadScript).map Prod.fst =
      some ("consentManagement") ∧
    c2ConsentHeadScript.isInline = false ∧
    c2ConsentHeadScript.loading.strategy = "none" ∧
    c2ConsentHeadScript.position.location = "head" ∧
    (generateRecommendation c2ConsentHeadScript).suggestedStrategy =
      "keep-sync-in-head" ∧
    (generateRecommendation c2ConsentHeadScript).hasIssue = false := by
  refine ⟨by decide, rfl, rfl, rfl, by decide, by decide⟩

/-- Claim C2 (amended): every external consent-management-matching script
gets `keep-sync-in-head` (never `async`); its `hasIssue` is `true` exactly
when it has no loading strategy AND is not in the head — in-head placement
alone suppresses the issue flag. -/
theorem c2_consent_strategy_amended (s : Script) (hinl : s.isInline = false)
    (hdet : (detectSeoCriticalScript s).map Prod.fst = some ("consentManagement")) :
    (generateRecommendation s).suggestedStrategy = "keep-sync-in-head" ∧
    ((generateRecommendation s).hasIssue = true ↔
      (s.loading.strategy = "none" ∧ s.position.location ≠ "head")) := by
  cases hd : detectSeoCriticalScript s with
  | none => rw [hd] at hdet; simp at hdet
  | some d =>
    rw [hd] at hdet
    simp only [Option.map_some', Option.some.injEq] at hdet
    have hb : (d.1 == "consentManagement") = true := by
      simp [hdet]
    unfold generateRecommendation
    simp only [hinl, Bool.false_eq_true, if_false, hd, hb, Bool.true_and, if_true]
    refine ⟨by trivial, ?_⟩
    simp only [Bool.and_eq_true, Bool.not_eq_true, Bool.or_eq_true, beq_iff_eq,
      Bool.not_eq_true', Bool.or_eq_false_iff, beq_eq_false_iff_ne]
    constructor
    · rintro ⟨⟨-, hloc⟩, hnone⟩
      exact ⟨hnone, hloc⟩
    · rintro ⟨hnone, hloc⟩
      refine ⟨⟨?_, hloc⟩, hnone⟩
      rw [hnone]
      decide

/-- Witness for C2 (amended), instantiated at the concrete in-head
consent script. -/
theorem c2_consent_strategy_witness :
    (generateRecommendation c2ConsentHeadScript).suggestedStrategy =
      "keep-sync-in-head" ∧
    ((generateRecommendation c2ConsentHeadScript).hasIssue = true ↔
      (c2ConsentHeadScript.loading.strategy = "none" ∧
       c2ConsentHeadScript.position.location ≠ "head")) :=
  c2_consent_strategy_amended c2ConsentHeadScript rfl (by decide)

/-! ### Claim C6: detection order of `detectSeoCriticalScript` -/

/-- Definition following the spec's words (§4.3): iterate the fixed
ordered list of critical-category policies (structured-data/schema,
tag-manager, generic analytics, ad-pixel, consent-management); the first
category with any matching pattern wins; no match means `none`.  Stated on
the scanned text; compared against `detectSeoCriticalScript` below. -/
def specFirstMatchingCategory (txt : String) : Option String :=
  ([ (("schemaOrg"), schemaOrgConfig),
     (("gtm"), gtmConfig),
     (("googleAnalytics"), googleAnalyticsConfig),
     (("facebookPixel"), facebookPixelConfig),
     (("consentManagement"), consentManagementConfig) ].find?
    (fun kv => kv.2.patterns.any (fun p => seoTest p txt))).map Prod.fst

/-- Claim C6: a `type="application/ld+json"` script gets the JSON-LD
policy unconditionally (regardless of content or URL); every other script
is resolved to the first canonically-ordered category with a matching
pattern on its scanned text (inline content or URL), or `none`.
Determinism across calls is inherent: the embedding is a pure function. -/
theorem c6_seo_detection_order :
    (∀ s : Script, s.type = some ("application/ld+json") →
        detectSeoCriticalScript s = some ((("jsonLd"), jsonLdConfig))) ∧
    (∀ s : Script, s.type ≠ some ("application/ld+json") →
        (detectSeoCriticalScript s).map Prod.fst =
          specFirstMatchingCategory (contentToCheck s)) := by
  constructor
  · intro s h
    unfold detectSeoCriticalScript
    simp [h]
  · intro s h
    have hc : (s.type == some ("application/ld+json")) = false :=
      beq_eq_false_iff_ne.mpr h
    have e1 : schemaOrgConfig.patterns.isEmpty = false := rfl
    have e2 : gtmConfig.patterns.isEmpty = false := rfl
    have e3 : googleAnalyticsConfig.patterns.isEmpty = false := rfl
    have e4 : facebookPixelConfig.patterns.isEmpty = false := rfl
    have e5 : consentManagementConfig.patterns.isEmpty = false := rfl
    have e6 : jsonLdConfig.patterns.isEmpty = true := rfl
    have e7 : jsonLdConfig.patterns.any
        (fun p => seoTest p (contentToCheck s)) = false := rfl
    unfold detectSeoCriticalScript specFirstMatchingCategory SEO_CRITICAL_PATTERNS
    simp only [hc, Bool.false_eq_true, if_false, List.find?]
    cases t1 : schemaOrgConfig.patterns.any (fun p => seoTest p (contentToCheck s)) <;>
    cases t2 : gtmConfig.patterns.any (fun p => seoTest p (contentToCheck s)) <;>
    cases t3 : googleAnalyticsConfig.patterns.any (fun p => seoTest p (contentToCheck s)) <;>
    cases t4 : facebookPixelConfig.patterns.any (fun p => seoTest p (contentToCheck s)) <;>
    cases t5 : consentManagementConfig.patterns.any (fun p => seoTest p (contentToCheck s)) <;>
      simp [t1, t2, t3, t4, t5, e1, e2, e3, e4, e5, e6, e7, List.find?]

/-- A JSON-LD script (by type attribute) and an inline script whose
content matches both the tag-manager and the analytics category. -/
def c6JsonLdScript : Script :=
  ⟨none, true, some ("application/ld+json"), some ("not even json"),
   "internal", none, ⟨("head")⟩, ⟨("none"), true⟩, none, none⟩

def c6DoubleMatchScript : Script :=
  ⟨none, true, some ("text/javascript"),
   some ("gtm.start; googletagmanager.com/gtag config"),
   "internal", none, ⟨("head")⟩, ⟨("none"), true⟩, none, none⟩

/-- Witness for C6: the type-attribute branch at a concrete JSON-LD script
and the canonical order at a script matching two categories at once
(tag-manager wins over analytics). -/
theorem c6_seo_detection_order_witness :
    detectSeoCriticalScript c6JsonLdScript = some ((("jsonLd"), jsonLdConfig)) ∧
    (detectSeoCriticalScript c6DoubleMatchScript).map Prod.fst =
      specFirstMatchingCategory (contentToCheck c6DoubleMatchScript) ∧
    specFirstMatchingCategory (contentToCheck c6DoubleMatchScript) = some ("gtm") ∧
    gtmConfig.patterns.any
      (fun p => seoTest p (contentToCheck c6DoubleMatchScript)) = true ∧
    googleAnalyticsConfig.patterns.any
      (fun p => seoTest p (contentToCheck c6DoubleMatchScript)) = true :=
  ⟨c6_seo_detection_order.1 c6JsonLdScript rfl,
   c6_seo_detection_order.2 c6DoubleMatchScript (by decide),
   by decide, by decide, by decide⟩

/-! ### Claim C7: malformed URLs never escape `matchVendor` -/

/-- Claim C7: for every input that reaches URL parsing (non-empty, not a
`/`- or `.`-prefixed relative path) and fails it, `matchVendor` returns
the fallback `{other, External Script, standard, defer}` with the error
description attached.  The embedding is a total function: the thrown
`TypeError` is consumed by the `catch` branch and no exception propagates. -/
theorem c7_malformed_url_fallback
    (db : List (String × List (String × VendorInfo)))
    (windowHostname : Option String) (url : String)
    (position : Option ScriptPosition) (loading : Option VendorLoading)
    (e : String)
    (h0 : url ≠ "") (h1 : strStartsWith url ("/") = false)
    (h2 : strStartsWith url (".") = false)
    (hp : parseURL url = Except.error e) :
    matchVendor db windowHostname url position loading =
      ⟨"other", "External Script", "standard", "defer", none, some e, none⟩ := by
  have h0b : (url == "") = false := beq_eq_false_iff_ne.mpr h0
  unfold matchVendor
  simp [h0b, h1, h2, hp]

/-- Witness for C7 at a concrete unparsable input (no scheme separator). -/
theorem c7_malformed_url_fallback_witness :
    matchVendor specVendorTable none ("notaurl") none none =
      ⟨"other", "External Script", "standard", "defer", none,
       some ("Invalid URL"), none⟩ :=
  c7_malformed_url_fallback specVendorTable none ("notaurl") none none
    ("Invalid URL") (by decide) (by decide) (by decide) rfl

/-! ### Claim C9: above-the-fold pruning -/

mutual

/-- If every element `top` in the node lies strictly below the fold, the
clone is the node itself. -/
theorem cloneAboveTheFold_complete (m : Int) :
    ∀ n : DomNode, topsBelow m n = true → cloneAboveTheFold m n = some n
  | DomNode.text s, _ => by simp [cloneAboveTheFold]
  | DomNode.elem tag attrs top children, h => by
      have hh := h
      simp only [topsBelow, Bool.and_eq_true, decide_eq_true_eq] at hh
      have hc := clonePruneList_complete m children hh.2
      simp [cloneAboveTheFold, hc, not_le.mpr hh.1]

/-- List version of `cloneAboveTheFold_complete`. -/
theorem clonePruneList_complete (m : Int) :
    ∀ l : List DomNode, topsBelowList m l = true → clonePruneList m l = l
  | [], _ => by simp [clonePruneList]
  | c :: cs, h => by
      have hh := h
      simp only [topsBelowList, Bool.and_eq_true] at hh
      have h1 := cloneAboveTheFold_complete m c hh.1
      have h2 := clonePruneList_complete m cs hh.2
      simp [clonePruneList, h1, h2]

end

/-- Claim C9 (counterexample): at fold height 0 a direct text child of the
body is cloned verbatim, so the pruned body is not empty — refuting
"fold height 0 yields an empty body". -/
theorem c9_fold_zero_counterexample :
    clonePruneList 0 [DomNode.text ("hello")] = [DomNode.text ("hello")] ∧
    clonePruneList 0 [DomNode.text ("hello")] ≠ [] := by
  constructor
  · simp [clonePruneList, cloneAboveTheFold]
  · simp [clonePruneList, cloneAboveTheFold]

/-- Claim C9 (amended): at fold height 0 every element child with
non-negative top offset is pruned (text children and negative-top elements
survive, so the body need not be empty); a fold height above every
element's top leaves the body unchanged; an element whose container
survives is excluded exactly when its top is at or past the fold; text and
non-element nodes are cloned verbatim whenever their container survives. -/
theorem c9_pruner_amended :
    (∀ l : List DomNode, (∀ n ∈ l, elemWithNonnegTop n = true) →
        clonePruneList 0 l = []) ∧
    (∀ (m : Int) (l : List DomNode), topsBelowList m l = true →
        clonePruneList m l = l) ∧
    (∀ (m : Int) (tag : String) (attrs : List (String × String)) (top : Int)
        (children : List DomNode),
        (cloneAboveTheFold m (DomNode.elem tag attrs top children) = none ↔
          m ≤ top)) ∧
    (∀ (m : Int) (s : String),
        cloneAboveTheFold m (DomNode.text s) = some (DomNode.text s)) := by
  refine ⟨?_, fun m l h => clonePruneList_complete m l h, ?_, ?_⟩
  · intro l hl
    induction l with
    | nil => simp [clonePruneList]
    | cons c cs ih =>
        have hcs : ∀ n ∈ cs, elemWithNonnegTop n = true :=
          fun n hn => hl n (List.mem_cons_of_mem c hn)
        cases c with
        | text s =>
            have hc := hl (DomNode.text s) (List.mem_cons_self _ _)
            simp [elemWithNonnegTop] at hc
        | elem tag attrs top children =>
            have hc := hl (DomNode.elem tag attrs top children)
              (List.mem_cons_self _ _)
            simp only [elemWithNonnegTop, decide_eq_true_eq] at hc
            simp [clonePruneList, cloneAboveTheFold, hc, ih hcs]
  · intro m tag attrs top children
    constructor
    · intro h
      by_contra hlt
      push_neg at hlt
      simp [cloneAboveTheFold, not_le.mpr hlt] at h
    · intro h
      simp [cloneAboveTheFold, h]
  · intro m s
    simp [cloneAboveTheFold]

/-- Witness for C9 (amended): a non-negative-top element child vanishes at
fold height 0, and a fold height above every top preserves the body. -/
theorem c9_pruner_amended_witness :
    clonePruneList 0 [DomNode.elem ("div") [] 10 []] = [] ∧
    clonePruneList 50 [DomNode.elem ("div") [] 10 [DomNode.text ("x")]] =
      [DomNode.elem ("div") [] 10 [DomNode.text ("x")]] :=
  ⟨c9_pruner_amended.1 _ (by decide),
   c9_pruner_amended.2.1 50 _ (by
     simp [topsBelowList, topsBelow])⟩

/-! ### Claim C8: the third-party fallback of `matchVendor` -/

theorem capWord_length (w : List Char) : (capWord w).length = w.length := by
  cases w <;> simp [capWord]

theorem splitCharAux_ne_nil (sep : Char) :
    ∀ (cs cur : List Char), splitCharAux sep cur cs ≠ []
  | [], cur => by simp [splitCharAux]
  | c :: rest, cur => by
      cases hb : (c == sep) with
      | true => simp [splitCharAux, hb]
      | false =>
          simp only [splitCharAux, hb, Bool.false_eq_true, if_false]
          exact splitCharAux_ne_nil sep rest (c :: cur)

/-- `split` followed by `join` restores the input (with the accumulator
prepended), so word splitting loses no characters. -/
theorem joinChar_splitCharAux (sep : Char) :
    ∀ (cs cur : List Char), joinChar sep (splitCharAux sep cur cs) = cur.reverse ++ cs
  | [], cur => by simp [splitCharAux, joinChar]
  | c :: rest, cur => by
      cases hb : (c == sep) with
      | false =>
          have ih := joinChar_splitCharAux sep rest (c :: cur)
          simp only [splitCharAux, hb, Bool.false_eq_true, if_false] at ih ⊢
          rw [ih]
          simp
      | true =>
          obtain ⟨r1, rs, hR⟩ :=
            List.exists_cons_of_ne_nil (splitCharAux_ne_nil sep rest [])
          have ih := joinChar_splitCharAux sep rest ([] : List Char)
          have hcs : c = sep := by
            have := hb; exact beq_iff_eq.mp this
          simp only [splitCharAux, hb, if_true, hR] at ih ⊢
          simp only [joinChar, List.reverse_nil, List.nil_append] at ih ⊢
          rw [ih, hcs]

theorem joinChar_map_capWord_length (sep : Char) :
    ∀ ws : List (List Char),
      (joinChar sep (ws.map capWord)).length = (joinChar sep ws).length
  | [] => rfl
  | [w] => by simp [joinChar, capWord_length]
  | w :: w2 :: ws => by
      have ih := joinChar_map_capWord_length sep (w2 :: ws)
      simp only [List.map_cons, joinChar, List.length_append, List.length_cons,
        capWord_length] at ih ⊢
      omega

theorem capitalizeWords_length (cs : List Char) :
    (capitalizeWords cs).length = cs.length := by
  unfold capitalizeWords splitCharList
  rw [joinChar_map_capWord_length, joinChar_splitCharAux]
  simp

/-- The second-to-last dot-label the name extractor capitalizes is
non-empty (hypothesis under which the readable name is non-empty). -/
def hostnameMainLabelNonempty (hostname : String) : Prop :=
  2 ≤ (splitCharList '.' (stripHostLabel hostname).toList).length →
  (splitCharList '.' (stripHostLabel hostname).toList).getD
    ((splitCharList '.' (stripHostLabel hostname).toList).length - 2) [] ≠ []

instance decHostnameMainLabelNonempty (hostname : String) :
    Decidable (hostnameMainLabelNonempty hostname) := by
  unfold hostnameMainLabelNonempty
  infer_instance

/-- The inferred criticality of the third-party fallback always lies in
its closed three-value range. -/
theorem inferCriticality_range (url : String) (position : Option ScriptPosition)
    (loading : Option VendorLoading) :
    inferCriticality url position loading = "critical" ∨
    inferCriticality url position loading = "non-essential" ∨
    inferCriticality url position loading = "interactive" := by
  unfold inferCriticality
  dsimp only
  split
  · exact Or.inl rfl
  · split
    · exact Or.inr (Or.inl rfl)
    · split
      · exact Or.inr (Or.inl rfl)
      · exact Or.inr (Or.inr rfl)

/-- The inferred load strategy of the third-party fallback always lies in
its closed three-value range. -/
theorem inferLoadStrategy_range (position : Option ScriptPosition)
    (loading : Option VendorLoading) :
    inferLoadStrategy position loading = "defer" ∨
    inferLoadStrategy position loading = "async" ∨
    inferLoadStrategy position loading = "current" := by
  unfold inferLoadStrategy
  dsimp only
  split
  · exact Or.inl rfl
  · split
    · exact Or.inr (Or.inl rfl)
    · exact Or.inr (Or.inr rfl)

theorem extractReadableName_ne_empty (h : String) (h0 : h ≠ "")
    (hm : hostnameMainLabelNonempty h) : extractReadableName h ≠ "" := by
  have hb : (h == "") = false := beq_eq_false_iff_ne.mpr h0
  unfold extractReadableName
  simp only [hb, Bool.false_eq_true, if_false]
  by_cases hp : (splitCharList '.' (stripHostLabel h).toList).length ≥ 2
  · have hmd := hm hp
    have hfne :
        String.mk (capitalizeWords
          (((splitCharList '.' (stripHostLabel h).toList).getD
              ((splitCharList '.' (stripHostLabel h).toList).length - 2) []).map
            (fun ch => if ch == '-' || ch == '_' then ' ' else ch))) ≠ "" := by
      intro he
      have hdata := congrArg String.data he
      simp only [] at hdata
      have hlen := congrArg List.length hdata
      rw [capitalizeWords_length, List.length_map] at hlen
      simp only [List.length_nil] at hlen
      exact hmd (List.eq_nil_of_length_eq_zero hlen)
    simp only [ge_iff_le, hp, if_true]
    split
    · intro he
      have hdata := congrArg String.data he
      rw [String.data_append] at hdata
      have := List.append_eq_nil.mp hdata
      exact absurd this.2 (by simp)
    · split
      · intro he
        have hdata := congrArg String.data he
        rw [String.data_append] at hdata
        have := List.append_eq_nil.mp hdata
        exact absurd this.2 (by simp)
      · split
        · intro he
          have hdata := congrArg String.data he
          rw [String.data_append] at hdata
          have := List.append_eq_nil.mp hdata
          exact absurd this.2 (by simp)
        · exact hfne
  · simp only [ge_iff_le, hp, if_false]
    exact h0

/-- Claim C8 is false as stated: the valid absolute URL `http://.com/x.js`
(empty second-to-last host label) falls through to the third-party branch
with an EMPTY readable name. -/
theorem c8_empty_name_counterexample :
    (parseURL ("http://.com/x.js")).isOk = true ∧
    findVendorMatch specVendorTable (".com") (".com/x.js") = none ∧
    (matchVendor specVendorTable none ("http://.com/x.js") none none).category =
      "third_party" ∧
    (matchVendor specVendorTable none ("http://.com/x.js") none none).name = "" := by
  refine ⟨by decide, by decide, by decide, by decide⟩

/-- Claim C8 (amended): for a parsed absolute URL matching no vendor-table
entry and not same-origin, `matchVendor` always returns category
`third_party` with every field populated (criticality and loadStrategy
drawn from their closed inference ranges, a description naming the host),
and the name is non-empty PROVIDED the hostname is non-empty and its
second-to-last dot-label (after prefix stripping) is non-empty — hostnames
with an empty main label (e.g. `.com`) yield an empty name. -/
theorem c8_third_party_fallback_amended
    (db : List (String × List (String × VendorInfo)))
    (windowHostname : Option String) (url : String)
    (position : Option ScriptPosition) (loading : Option VendorLoading)
    (u : URLParts)
    (h0 : url ≠ "") (h1 : strStartsWith url ("/") = false)
    (h2 : strStartsWith url (".") = false)
    (hp : parseURL url = Except.ok u)
    (hv : findVendorMatch db u.hostname (u.hostname ++ u.pathname) = none)
    (hw : match windowHostname with
          | some wh => (u.hostname == wh) = false
          | none => True) :
    (matchVendor db windowHostname url position loading).category = "third_party" ∧
    (matchVendor db windowHostname url position loading).name =
      extractReadableName u.hostname ∧
    ((matchVendor db windowHostname url position loading).criticality = "critical" ∨
     (matchVendor db windowHostname url position loading).criticality = "non-essential" ∨
     (matchVendor db windowHostname url position loading).criticality = "interactive") ∧
    ((matchVendor db windowHostname url position loading).loadStrategy = "defer" ∨
     (matchVendor db windowHostname url position loading).loadStrategy = "async" ∨
     (matchVendor db windowHostname url position loading).loadStrategy = "current") ∧
    (matchVendor db windowHostname url position loading).description =
      some ("Third-party script from " ++ u.hostname) ∧
    (matchVendor db windowHostname url position loading).error = none ∧
    (u.hostname ≠ "" → hostnameMainLabelNonempty u.hostname →
      (matchVendor db windowHostname url position loading).name ≠ "") := by
  have h0b : (url == "") = false := beq_eq_false_iff_ne.mpr h0
  have hmv : matchVendor db windowHostname url position loading =
      ⟨"third_party", extractReadableName u.hostname,
       inferCriticality url position loading,
       inferLoadStrategy position loading,
       some ("Third-party script from " ++ u.hostname), none, none⟩ := by
    unfold matchVendor
    simp only [h0b, h1, h2, Bool.or_self, Bool.false_eq_true, if_false, hp, hv]
    cases windowHostname with
    | none => simp
    | some wh => simp [hw]
  rw [hmv]
  refine ⟨rfl, rfl, ?_, ?_, rfl, rfl, ?_⟩
  · exact inferCriticality_range url position loading
  · exact inferLoadStrategy_range position loading
  · intro hne hm
    exact extractReadableName_ne_empty u.hostname hne hm

/-- Witness for C8 (amended) at a concrete unrecognized third-party URL. -/
theorem c8_third_party_fallback_witness :
    (matchVendor specVendorTable none ("https://cdn.example-site.com/app.js")
        none none).category = "third_party" ∧
    (matchVendor specVendorTable none ("https://cdn.example-site.com/app.js")
        none none).name ≠ "" :=
  have h := c8_third_party_fallback_amended specVendorTable none
    ("https://cdn.example-site.com/app.js") none none
    ⟨"https", "cdn.example-site.com", "/app.js"⟩
    (by decide) (by decide) (by decide) rfl (by decide) trivial
  ⟨h.1, h.2.2.2.2.2.2 (by decide) (by decide)⟩

end CriticalCss
